import Mathlib

/-! # Bot-IA-Epitech front end: `frontend/site/app.js`

A shallow embedding of the two pieces of `app.js`:

* `makeSlider`, the slide rotator (lines 1-16);
* the chat widget: `addMessage` (lines 27-57) and the `submit` handler of the
  chat form (lines 60-118).

The DOM is modelled by the part of it the script reads or writes: the class
lists of the slides, the children of the chat window, the value of the input,
the `disabled` flag of the send button and the developer console.  Layout
(scroll offsets) and real time (the period of the timers) are not modelled.
-/

namespace AppJs

/-! ## Slide rotator -/

/-- The class list of a DOM element, as the ordered list of its tokens. -/
abbrev ClassList := List String

/-- Method `classList.add(tok)`: the token is appended unless already present. -/
def ClassList.add (c : ClassList) (tok : String) : ClassList :=
  if c.contains tok then c else c ++ [tok]

/-- Method `classList.remove(tok)`: every occurrence of the token is dropped. -/
def ClassList.remove (c : ClassList) (tok : String) : ClassList :=
  c.filter (fun t => t != tok)

/-- Method `classList.toggle(tok, force)` with an explicit `force` argument:
adds the token when `force` is true and removes it otherwise. -/
def ClassList.toggle (c : ClassList) (tok : String) (force : Bool) : ClassList :=
  if force then c.add tok else c.remove tok

/-- Apply `f` to the element at position `i` of a list (nothing happens when
`i` is out of range).  Stands for a mutation of the object `xs[i]`. -/
def updateAt {α : Type} (f : α → α) : List α → Nat → List α
  | [], _ => []
  | x :: xs, 0 => f x :: xs
  | x :: xs, i + 1 => x :: updateAt f xs i

/-- The closure state of one rotator: the matched elements (by their class
lists) and the cursor `i`. -/
structure Slider where
  slides : List ClassList
  i : Nat
deriving DecidableEq, Repr

/-- The loop `slides.forEach((s, idx) => s.classList.toggle("active", idx === 0))`,
with `idx` the index of the head of the list. -/
def initSlides : List ClassList → Nat → List ClassList
  | [], _ => []
  | s :: rest, idx => s.toggle "active" (idx == 0) :: initSlides rest (idx + 1)

/-- Function `makeSlider` up to the `setInterval` call.  The argument is the result of
`document.querySelectorAll(selector)`; `none` is the early `return` on an
empty match. -/
def makeSlider (matched : List ClassList) : Option Slider :=
  if matched.length = 0 then none
  else some { slides := initSlides matched 0, i := 0 }

/-- One run of the timer callback. -/
def tick (st : Slider) : Slider :=
  let slides1 := updateAt (fun c => c.remove "active") st.slides st.i
  let i1 := (st.i + 1) % st.slides.length
  { slides := updateAt (fun c => c.add "active") slides1 i1, i := i1 }

/-- The rotator after `k` runs of the timer callback. -/
def ticks : Nat → Slider → Slider
  | 0, st => st
  | k + 1, st => ticks k (tick st)

/-- The element at index `j` carries the `active` marker. -/
def isActive (st : Slider) (j : Nat) : Bool :=
  match st.slides[j]? with
  | some c => c.contains "active"
  | none => false

/-! ## JSON values and the JavaScript operations the handler applies to them -/

/-- An exception value.  `error msg` is `new Error(msg)`; `typeError` is a
`TypeError` raised by the engine (its message is engine specific); `thrown`
is whatever `fetch` or `resp.json()` rejected with (a network `TypeError`, a
`SyntaxError`, ...), by name and message. -/
inductive JsError where
  | error (message : String)
  | typeError
  | thrown (name message : String)
deriving DecidableEq, Repr

/-- A number of a parsed JSON body, by the two observations the script makes
of a value: whether it is falsy (`0` and `-0`) and what `ToString` gives. -/
structure JsNumber where
  isZero : Bool
  text : String
deriving DecidableEq, Repr

/-- The value `resp.json()` resolves with.  An object is the list of its own
properties in source order; a repeated key keeps its last value. -/
inductive Json where
  | null
  | bool (b : Bool)
  | num (n : JsNumber)
  | str (s : String)
  | arr (items : List Json)
  | obj (props : List (String × Json))
deriving Repr

/-- A JavaScript value met by the handler: `none` is `undefined`. -/
abbrev JsValue := Option Json

mutual
/-- Operation `ToString` on a parsed JSON value, with `nullText` the text of `null`
(`"null"` at top level, `""` for an element of an array being joined).  An
array is joined with commas.  A plain object gives `[object Object]` through
`Object.prototype.toString`, unless it has an own `toString` property: that
one is not callable, `valueOf` returns the object itself, and the conversion
throws a `TypeError`. -/
def Json.render (nullText : String) : Json → Except JsError String
  | .null => .ok nullText
  | .bool b => .ok (if b then "true" else "false")
  | .num n => .ok n.text
  | .str s => .ok s
  | .arr items => Json.join items
  | .obj props =>
    if props.any (fun kv => kv.1 == "toString") then .error .typeError
    else .ok "[object Object]"
/-- Method `Array.prototype.join` with the default separator. -/
def Json.join : List Json → Except JsError String
  | [] => .ok ""
  | [x] => Json.render "" x
  | x :: y :: rest => do
    let a ← Json.render "" x
    let b ← Json.join (y :: rest)
    pure (a ++ "," ++ b)
end

/-- Conversion of a value to a `DOMString` / `USVString` (WebIDL): `ToString`. -/
def toDOMString : JsValue → Except JsError String
  | none => .ok "undefined"
  | some v => v.render "null"

/-- Conversion of a value to a nullable `DOMString?` as taken by the
`textContent` setter: `undefined` and `null` become `null`, which the setter
treats as the empty string. -/
def toTextContent : JsValue → Except JsError String
  | none => .ok ""
  | some .null => .ok ""
  | some v => v.render "null"

/-- The value of the last property named `key`. -/
def lookupLast (props : List (String × Json)) (key : String) : JsValue :=
  List.lookup key props.reverse

/-- Property read `v.key` for the keys the script reads (`answer`, `sources`,
`url`; no prototype defines them): a `TypeError` on `null` and `undefined`,
the own property of an object, `undefined` on any other value. -/
def getProp (v : JsValue) (key : String) : Except JsError JsValue :=
  match v with
  | none => .error .typeError
  | some .null => .error .typeError
  | some (.obj props) => .ok (lookupLast props key)
  | some _ => .ok none

/-- Truthiness of a value (`ToBoolean`). -/
def truthy : JsValue → Bool
  | none => false
  | some .null => false
  | some (.bool b) => b
  | some (.num n) => !n.isZero
  | some (.str s) => s != ""
  | some (.arr _) => true
  | some (.obj _) => true

/-- Code points removed by `String.prototype.trim`: white space and line
terminators of ECMAScript. -/
def isJsWhitespace (c : Char) : Bool :=
  let n := c.toNat
  n == 9 || n == 10 || n == 11 || n == 12 || n == 13 || n == 32 || n == 160 ||
  n == 5760 || (8192 ≤ n && n ≤ 8202) || n == 8232 || n == 8233 ||
  n == 8239 || n == 8287 || n == 12288 || n == 65279

/-- Method `String.prototype.trim`. -/
def jsTrim (s : String) : String :=
  String.mk ((s.toList.dropWhile isJsWhitespace).reverse.dropWhile isJsWhitespace).reverse

/-- The escape `JSON.stringify` writes for one character of a string. -/
def jsonEscape (c : Char) : List Char :=
  let n := c.toNat
  let bs := Char.ofNat 92
  if n = 34 then [bs, c]
  else if n = 92 then [bs, bs]
  else if n = 8 then [bs, 'b']
  else if n = 12 then [bs, 'f']
  else if n = 10 then [bs, 'n']
  else if n = 13 then [bs, 'r']
  else if n = 9 then [bs, 't']
  else if n < 32 then [bs, 'u', '0', '0', Nat.digitChar (n / 16), Nat.digitChar (n % 16)]
  else [c]

/-- Function `JSON.stringify` on a string: the quoted, escaped text. -/
def jsonQuote (s : String) : String :=
  String.mk ([Char.ofNat 34] ++ s.toList.flatMap jsonEscape ++ [Char.ofNat 34])

/-! ## Chat widget: data model -/

/-- An anchor built for one source entry. -/
structure Link where
  href : String
  target : String
  rel : String
  text : String
deriving DecidableEq, Repr

/-- The `div.sources` element: its title and its links, in order (each link
sits in a `div` of its own). -/
structure SourcesBlock where
  title : String
  links : List Link
deriving DecidableEq, Repr

/-- The `div.bubble` element: its text and the blocks appended after it.
Assigning `textContent` replaces all of its children by one text. -/
structure Bubble where
  text : String
  blocks : List SourcesBlock
deriving DecidableEq, Repr

/-- Setter `bubble.textContent = t`: all children are replaced by the text. -/
def Bubble.setTextContent (_ : Bubble) (t : String) : Bubble :=
  { text := t, blocks := [] }

/-- Call `bubble.appendChild(sources)`. -/
def Bubble.append (b : Bubble) (blk : SourcesBlock) : Bubble :=
  { text := b.text, blocks := b.blocks ++ [blk] }

/-- The `div.avatar` element of a message. -/
structure Avatar where
  classes : List String
  ariaHidden : Option String
  text : String
  img : Option (String × String)
deriving DecidableEq, Repr

/-- One child of the chat window, as built by `addMessage`. -/
structure Msg where
  classes : List String
  avatarFirst : Bool
  avatar : Avatar
  bubble : Bubble
deriving DecidableEq, Repr

/-- The request handed to `fetch`. -/
structure Request where
  url : String
  method : String
  headers : List (String × String)
  body : String
deriving DecidableEq, Repr

/-- The part of the page the chat script reads and writes: the children of
`chatWindow` (the transcript), `input.value`, `sendButton.disabled` and what
`console.error` has received. -/
structure Chat where
  chatWindow : List Msg
  inputValue : String
  disabled : Bool
  console : List JsError
deriving DecidableEq, Repr

/-- What the script reads of `window` while it loads: the page origin, the
identifier `crypto.randomUUID()` returns when that function exists, and
`Date.now()`. -/
structure Window where
  origin : String
  randomUUID : Option String
  now : Int
deriving DecidableEq, Repr

/-- The module constants `sessionId` and `apiBase`, evaluated once at load. -/
structure App where
  sessionId : String
  apiBase : String
deriving DecidableEq, Repr

/-- Lines 23-24. -/
def load (w : Window) : App :=
  { sessionId := match w.randomUUID with
      | some uuid => uuid
      | none => toString w.now
    apiBase := if w.origin = "null" then "http://127.0.0.1:8000" else w.origin }

/-- How the awaited network call ends: `fetch` rejects, or it resolves with a
response of some status whose `json()` either rejects or resolves. -/
inductive Outcome where
  | rejected (err : JsError)
  | response (status : Nat) (body : Except JsError Json)

/-- Getter `resp.ok`: the status is in the range 200-299. -/
def respOk (status : Nat) : Bool := 200 ≤ status && status ≤ 299

/-- A statement of the handler with an effect outside its local variables. -/
inductive Effect where
  | preventDefault
  | appendChild (m : Msg)
  | scrollToEnd
  | setInputValue (v : String)
  | setDisabled (b : Bool)
  | fetch (req : Request)
  | setTextContent (bubble : Nat) (t : String)
  | appendSources (bubble : Nat) (blk : SourcesBlock)
  | consoleError (err : JsError)
deriving DecidableEq, Repr

/-- The effect of a statement on the page.  A bubble is named by the position
of its message in the chat window. -/
def Effect.apply : Effect → Chat → Chat
  | .preventDefault, s => s
  | .appendChild m, s => { s with chatWindow := s.chatWindow ++ [m] }
  | .scrollToEnd, s => s
  | .setInputValue v, s => { s with inputValue := v }
  | .setDisabled b, s => { s with disabled := b }
  | .fetch _, s => s
  | .setTextContent h t, s =>
    { s with chatWindow :=
        updateAt (fun m => { m with bubble := m.bubble.setTextContent t }) s.chatWindow h }
  | .appendSources h blk, s =>
    { s with chatWindow :=
        updateAt (fun m => { m with bubble := m.bubble.append blk }) s.chatWindow h }
  | .consoleError err, s => { s with console := s.console ++ [err] }

/-- The page after a sequence of statements. -/
def replay (es : List Effect) (s : Chat) : Chat :=
  es.foldl (fun s e => e.apply s) s

/-- An execution: the page, and the statements executed so far, oldest first.
The log records what the handler did; no statement reads it. -/
structure Run where
  chat : Chat
  log : List Effect
deriving DecidableEq, Repr

/-- Execute one statement. -/
def Run.exec (r : Run) (e : Effect) : Run :=
  { chat := e.apply r.chat, log := r.log ++ [e] }

/-! ## Chat widget: `addMessage` and the submit handler -/

/-- The message element `addMessage(who, text)` builds (lines 28-51). -/
def mkMsg (who text : String) : Msg :=
  let bubble : Bubble := { text := text, blocks := [] }
  if who = "bot" then
    { classes := ["msg", "msg-bot"]
      avatarFirst := true
      avatar := { classes := ["avatar"], ariaHidden := none, text := "",
                  img := some ("images/logo-AE.png", "Assistant EPITECH") }
      bubble := bubble }
  else
    { classes := ["msg", "msg-user"]
      avatarFirst := false
      avatar := { classes := ["avatar", "user"], ariaHidden := some "true", text := "Vous",
                  img := none }
      bubble := bubble }

/-- Function `addMessage` (lines 27-57).  The bubble it returns is named by the position
of the new message in the chat window. -/
def addMessage (who text : String) (r : Run) : Nat × Run :=
  let bubble := r.chat.chatWindow.length
  let r := r.exec (.appendChild (mkMsg who text))
  let r := r.exec .scrollToEnd
  (bubble, r)

/-- The text shown while the request is in flight: the literal of line 73 (the
comment of line 72 quotes an older wording). -/
def placeholderPhrase : String := "Recherche en cours..."

/-- The text shown for a response without an answer (line 87). -/
def fallbackPhrase : String := "Je n\x27ai pas de réponse pour l\x27instant."

/-- The text shown when the request fails (line 112). -/
def errorPhrase : String := "Erreur : impossible de joindre le serveur."

/-- The argument of `fetch` (lines 76-80); the body is
`JSON.stringify({ message: text, session_id: sessionId })`. -/
def chatRequest (app : App) (text : String) : Request :=
  { url := app.apiBase ++ "/chat"
    method := "POST"
    headers := [("Content-Type", "application/json")]
    body := "\x7b\"message\":" ++ jsonQuote text ++ ",\"session_id\":" ++
      jsonQuote app.sessionId ++ "\x7d" }

/-- Lines 87-88 up to the assignment: the text that `bubble.textContent = answer`
is about to write, or the exception raised on the way. -/
def answerText (data : Json) : Except JsError String := do
  let a ← getProp (some data) "answer"
  let answer : JsValue := if truthy a then a else some (.str fallbackPhrase)
  toDOMString answer

/-- The body of the `forEach` callback (lines 99-105): the link of one source. -/
def sourceLink (source : Json) : Except JsError Link := do
  let url ← getProp (some source) "url"
  let href ← toDOMString url
  let text ← toTextContent url
  pure { href := href, target := "_blank", rel := "noopener noreferrer", text := text }

/-- The loop `forEach` over the sliced sources (lines 98-107). -/
def sourceLinks : List Json → Except JsError (List Link)
  | [] => .ok []
  | source :: rest => do
    let link ← sourceLink source
    let links ← sourceLinks rest
    pure (link :: links)

/-- Lines 90-108: the `div.sources` element to append to the bubble (`none`
when the condition of line 90 fails), or the exception raised while building it. -/
def sourcesBlock (data : Json) : Except JsError (Option SourcesBlock) := do
  let sources ← getProp (some data) "sources"
  match sources with
  | some (.arr items) =>
    if items.length > 0 then do
      let links ← sourceLinks (items.take 4)
      pure (some { title := "Sources", links := links })
    else pure none
  | _ => pure none

/-- Lines 76-86, the two `await`s and the status check between them: the value
of `data`, or the exception raised (the rejection of `fetch`, the
`Error("API error")` of line 83 on a status outside 200-299, the rejection of
`resp.json()`). -/
def awaited : Outcome → Except JsError Json
  | .rejected err => .error err
  | .response status body =>
    if !respOk status then .error (.error "API error") else body

/-- The `try` block (lines 76-110): the run when the block is left, and the
exception it is left with, if any. -/
def tryBlock (app : App) (bubble : Nat) (text : String) (out : Outcome) (r : Run) :
    Run × Option JsError :=
  let r := r.exec (.fetch (chatRequest app text))
  match awaited out with
  | .error err => (r, some err)
  | .ok data =>
    match answerText data with
    | .error err => (r, some err)
    | .ok answer =>
      let r := r.exec (.setTextContent bubble answer)
      match sourcesBlock data with
      | .error err => (r, some err)
      | .ok none => (r, none)
      | .ok (some sources) => (r.exec (.appendSources bubble sources), none)

/-- The `catch` block (lines 111-113). -/
def catchBlock (bubble : Nat) (err : JsError) (r : Run) : Run :=
  let r := r.exec (.setTextContent bubble errorPhrase)
  r.exec (.consoleError err)

/-- The `finally` block (lines 114-117). -/
def finallyBlock (r : Run) : Run :=
  let r := r.exec (.setDisabled false)
  r.exec .scrollToEnd

/-- The submit handler of the chat form (lines 60-118), run to completion with
`out` the way the awaited network call ends. -/
def submitHandler (app : App) (out : Outcome) (r : Run) : Run :=
  let r := r.exec .preventDefault
  let text := jsTrim r.chat.inputValue
  if text = "" then r
  else
    let r := (addMessage "user" text r).2
    let r := r.exec (.setInputValue "")
    let r := r.exec (.setDisabled true)
    let (bubble, r) := addMessage "bot" placeholderPhrase r
    let (r, thrown) := tryBlock app bubble text out r
    let r := match thrown with
      | some err => catchBlock bubble err r
      | none => r
    finallyBlock r

/-- The user types `value` in the input and submits the form. -/
def submission (app : App) (value : String) (out : Outcome) (r : Run) : Run :=
  submitHandler app out { r with chat := { r.chat with inputValue := value } }

/-- A page session: successive submissions, each with the way its network call
would end. -/
def session (app : App) : List (String × Outcome) → Run → Run
  | [], r => r
  | (value, out) :: rest, r => session app rest (submission app value out r)

/-- The requests issued by a sequence of statements, oldest first. -/
def requestsOf : List Effect → List Request
  | [] => []
  | .fetch req :: es => req :: requestsOf es
  | _ :: es => requestsOf es

/-- The texts assigned to the bubble `h`, once attached, by a sequence of
statements (the assignment of line 31 is made on the element under
construction and is part of `mkMsg`). -/
def textWrites (h : Nat) : List Effect → List String
  | [] => []
  | .setTextContent b t :: es => if b = h then t :: textWrites h es else textWrites h es
  | _ :: es => textWrites h es

/-- The messages appended to the chat window by a sequence of statements. -/
def appendedBy : List Effect → List Msg
  | [] => []
  | .appendChild m :: es => m :: appendedBy es
  | _ :: es => appendedBy es

/-- The network call ends in a failure: `fetch` rejects, the status is outside
200-299 (whatever the body), or `resp.json()` rejects. -/
def isFailure : Outcome → Bool
  | .rejected _ => true
  | .response status body =>
    !respOk status || (match body with | .error _ => true | .ok _ => false)

/-- The url carried by a source entry: the entry is an object whose `url`
property is a string. -/
def entryUrl : Json → Option String
  | .obj props =>
    match lookupLast props "url" with
    | some (.str u) => some u
    | _ => none
  | _ => none

/-- The bubble of the newest message of the chat window. -/
def lastBubble (s : Chat) : Option Bubble :=
  s.chatWindow.getLast?.map (fun m => m.bubble)

/-- What a reader sees of the sources of a bubble: for each block its title and,
for each link in order, its target and its visible text. -/
def renderedSources (b : Bubble) : List (String × List (String × String)) :=
  b.blocks.map (fun blk => (blk.title, blk.links.map (fun l => (l.href, l.text))))

/-- The sources block as the specification words it: nothing for zero urls;
otherwise one block titled `Sources` with `min n 4` links, the `i`-th showing
and pointing to the `i`-th url. -/
def sourcesReference (urls : List String) : List (String × List (String × String)) :=
  if urls.length = 0 then []
  else [("Sources", (List.range (min urls.length 4)).map (fun i => (urls.getD i "", urls.getD i "")))]

/-- The request as the specification words it: `POST base/chat` with a JSON
content type and the body `{message, session_id}`, where `base` is the local
development address when the page origin is the string `null`. -/
def referenceRequest (origin sessionId message : String) : Request :=
  let base := if origin = "null" then "http://127.0.0.1:8000" else origin
  { url := base ++ "/chat"
    method := "POST"
    headers := [("Content-Type", "application/json")]
    body := "\x7b\"message\":" ++ jsonQuote message ++ ",\"session_id\":" ++
      jsonQuote sessionId ++ "\x7d" }

/-- The submissions of a session that pass the guard of line 63, by their
trimmed text. -/
def sentTexts : List (String × Outcome) → List String
  | [] => []
  | (value, _) :: rest =>
    if jsTrim value = "" then sentTexts rest else jsTrim value :: sentTexts rest

/-! ## Theorems: lists and the slide rotator -/

theorem updateAt_length {α : Type} (f : α → α) (xs : List α) (i : Nat) :
    (updateAt f xs i).length = xs.length := by
  induction xs generalizing i with
  | nil => rfl
  | cons x xs ih =>
    cases i with
    | zero => rfl
    | succ i => simp [updateAt, ih]

theorem updateAt_get? {α : Type} (f : α → α) (xs : List α) (i j : Nat) :
    (updateAt f xs i)[j]? = if i = j then xs[j]?.map f else xs[j]? := by
  induction xs generalizing i j with
  | nil => simp [updateAt]
  | cons x xs ih =>
    cases i with
    | zero =>
      cases j with
      | zero => simp [updateAt]
      | succ j => simp [updateAt]
    | succ i =>
      cases j with
      | zero => simp [updateAt]
      | succ j => simp [updateAt, ih]

theorem remove_not_contains (c : ClassList) (tok : String) :
    tok ∉ c.remove tok := by
  simp [ClassList.remove]

theorem add_contains (c : ClassList) (tok : String) :
    tok ∈ c.add tok := by
  unfold ClassList.add
  split
  · simpa using ‹c.contains tok = true›
  · simp

theorem initSlides_length (xs : List ClassList) (idx : Nat) :
    (initSlides xs idx).length = xs.length := by
  induction xs generalizing idx with
  | nil => rfl
  | cons x xs ih => simp [initSlides, ih]

theorem initSlides_get? (xs : List ClassList) (idx j : Nat) :
    (initSlides xs idx)[j]?
      = xs[j]?.map (fun c => c.toggle "active" (idx + j == 0)) := by
  induction xs generalizing idx j with
  | nil => simp [initSlides]
  | cons x xs ih =>
    cases j with
    | zero => simp [initSlides]
    | succ j =>
      simp only [initSlides, List.getElem?_cons_succ, ih]
      have : idx + 1 + j = idx + (j + 1) := by omega
      rw [this]

theorem updateAt_append_two {α : Type} (f : α → α) (xs : List α) (a b : α) :
    updateAt f (xs ++ [a, b]) (xs.length + 1) = xs ++ [a, f b] := by
  induction xs with
  | nil => rfl
  | cons x xs ih => simp [updateAt, ih]

theorem getElem?_append_length {α : Type} (xs : List α) (a : α) (ys : List α) :
    (xs ++ a :: ys)[xs.length]? = some a := by
  induction xs with
  | nil => simp
  | cons x xs ih => simpa using ih

theorem isActive_init (matched : List ClassList) (j : Nat) :
    isActive { slides := initSlides matched 0, i := 0 } j = true
      ↔ j = 0 ∧ matched ≠ [] := by
  unfold isActive
  simp only [initSlides_get?]
  cases hj : matched[j]? with
  | none =>
    simp only [Option.map_none']
    constructor
    · intro h; cases h
    · rintro ⟨rfl, hne⟩
      cases matched with
      | nil => exact absurd rfl hne
      | cons x xs => simp at hj
  | some c =>
    have hne : matched ≠ [] := by
      rintro rfl
      simp at hj
    simp only [Option.map_some', Nat.zero_add]
    by_cases h0 : j = 0
    · subst h0
      simp [ClassList.toggle, add_contains, hne]
    · have : (j == 0) = false := by simpa using h0
      simp [ClassList.toggle, this, remove_not_contains, h0]

theorem isActive_tick (st : Slider) (c : Nat) (hc : c < st.slides.length)
    (hi : st.i = c) (hact : ∀ j, isActive st j = true ↔ j = c) (j : Nat) :
    isActive (tick st) j = true ↔ j = (c + 1) % st.slides.length := by
  have hlt : (c + 1) % st.slides.length < st.slides.length :=
    Nat.mod_lt _ (by omega)
  unfold isActive tick
  simp only [updateAt_get?, hi]
  by_cases h1 : (c + 1) % st.slides.length = j
  · subst h1
    obtain ⟨x, hx⟩ : ∃ x, st.slides[(c + 1) % st.slides.length]? = some x :=
      ⟨_, List.getElem?_eq_getElem hlt⟩
    by_cases h2 : c = (c + 1) % st.slides.length
    · rw [← h2] at hx
      simp [← h2, hx, add_contains]
    · simp [h2, hx, add_contains]
  · simp only [h1, if_false]
    by_cases h2 : c = j
    · subst h2
      cases hx : st.slides[c]? with
      | none => simpa using fun h => h1 (Eq.symm h)
      | some x => simpa [remove_not_contains] using fun h => h1 (Eq.symm h)
    · simp only [h2, if_false]
      have := hact j
      unfold isActive at this
      rw [this]
      constructor
      · intro h; exact absurd h.symm h2
      · intro h; exact absurd h.symm h1

theorem tick_length (st : Slider) : (tick st).slides.length = st.slides.length := by
  simp [tick, updateAt_length]

theorem ticks_spec (k : Nat) : ∀ (st : Slider) (c : Nat), c < st.slides.length →
    st.i = c → (∀ j, isActive st j = true ↔ j = c) →
    (ticks k st).slides.length = st.slides.length ∧
    (ticks k st).i = (c + k) % st.slides.length ∧
    ∀ j, isActive (ticks k st) j = true ↔ j = (c + k) % st.slides.length := by
  induction k with
  | zero =>
    intro st c hc hi hact
    simp [ticks, Nat.mod_eq_of_lt hc, hi, hact]
  | succ k ih =>
    intro st c hc hi hact
    have hlt : (c + 1) % st.slides.length < st.slides.length :=
      Nat.mod_lt _ (by omega)
    have h := ih (tick st) ((c + 1) % st.slides.length)
      (by rw [tick_length]; exact hlt)
      (by simp [tick, hi])
      (by intro j; exact isActive_tick st c hc hi hact j)
    simp only [tick_length] at h
    have e : ((c + 1) % st.slides.length + k) % st.slides.length
        = (c + (k + 1)) % st.slides.length := by
      rw [Nat.mod_add_mod]; congr 1; omega
    simp only [ticks]
    rw [e] at h
    exact h

/-- C8: a rotator started over `n >= 1` matched elements, whatever classes they
carried, has after initialisation and `k` timer ticks exactly one active
element, the one at index `k mod n`; its cursor is that index too. -/
theorem makeSlider_active_singleton (matched : List ClassList) (k : Nat)
    (hn : 1 ≤ matched.length) :
    ∃ st0, makeSlider matched = some st0 ∧
      (ticks k st0).slides.length = matched.length ∧
      (ticks k st0).i = k % matched.length ∧
      ∀ j, isActive (ticks k st0) j = true ↔ j = k % matched.length := by
  have hne : matched ≠ [] := by
    rintro rfl
    simp at hn
  refine ⟨{ slides := initSlides matched 0, i := 0 }, ?_, ?_⟩
  · unfold makeSlider
    rw [if_neg (by omega)]
  · have h := ticks_spec k { slides := initSlides matched 0, i := 0 } 0
      (by simpa [initSlides_length] using hn) rfl
      (by intro j; rw [isActive_init]; simp [hne])
    simpa [initSlides_length] using h

theorem makeSlider_active_singleton_witness :
    ∃ st0, makeSlider [["slide", "active"], ["slide", "active"], ["slide"]] = some st0 ∧
      (ticks 4 st0).slides.length = 3 ∧
      (ticks 4 st0).i = 4 % 3 ∧
      ∀ j, isActive (ticks 4 st0) j = true ↔ j = 4 % 3 :=
  makeSlider_active_singleton [["slide", "active"], ["slide", "active"], ["slide"]] 4
    (by decide)

/-! ## Theorems: the chat handler -/

/-- The handler on a non-empty trimmed text, in closed form: the page and the
statement log it ends with, for each way the `try` block can be left
(exception before the answer is written, exception while the sources are
built, no sources block, a sources block). -/
theorem submitHandler_cases (app : App) (out : Outcome) (r : Run)
    (h : jsTrim r.chat.inputValue ≠ "") :
    ∃ (mid : List Effect) (B : Bubble) (errs : List JsError),
      submitHandler app out r =
        { chat :=
            { chatWindow := r.chat.chatWindow ++
                [mkMsg "user" (jsTrim r.chat.inputValue),
                 { mkMsg "bot" placeholderPhrase with bubble := B }]
              inputValue := ""
              disabled := false
              console := r.chat.console ++ errs }
          log := r.log ++
            ([.preventDefault,
              .appendChild (mkMsg "user" (jsTrim r.chat.inputValue)), .scrollToEnd,
              .setInputValue "", .setDisabled true,
              .appendChild (mkMsg "bot" placeholderPhrase), .scrollToEnd,
              .fetch (chatRequest app (jsTrim r.chat.inputValue))]
             ++ mid ++ [.setDisabled false, .scrollToEnd]) } ∧
      ((∃ err, (awaited out = .error err ∨
            ∃ data, awaited out = .ok data ∧ answerText data = .error err) ∧
          mid = [.setTextContent (r.chat.chatWindow.length + 1) errorPhrase, .consoleError err] ∧
          B = { text := errorPhrase, blocks := [] } ∧ errs = [err]) ∨
       (∃ data t err, awaited out = .ok data ∧ answerText data = .ok t ∧
          sourcesBlock data = .error err ∧
          mid = [.setTextContent (r.chat.chatWindow.length + 1) t,
                 .setTextContent (r.chat.chatWindow.length + 1) errorPhrase, .consoleError err] ∧
          B = { text := errorPhrase, blocks := [] } ∧ errs = [err]) ∨
       (∃ data t, awaited out = .ok data ∧ answerText data = .ok t ∧
          sourcesBlock data = .ok none ∧
          mid = [.setTextContent (r.chat.chatWindow.length + 1) t] ∧
          B = { text := t, blocks := [] } ∧ errs = []) ∨
       (∃ data t blk, awaited out = .ok data ∧ answerText data = .ok t ∧
          sourcesBlock data = .ok (some blk) ∧
          mid = [.setTextContent (r.chat.chatWindow.length + 1) t,
                 .appendSources (r.chat.chatWindow.length + 1) blk] ∧
          B = { text := t, blocks := [blk] } ∧ errs = [])) := by
  have hu : ∀ (f : Msg → Msg) (a b : Msg),
      updateAt f (r.chat.chatWindow ++ [a, b]) (r.chat.chatWindow.length + 1)
        = r.chat.chatWindow ++ [a, f b] := fun f a b => updateAt_append_two f _ a b
  cases hA : awaited out with
  | error err =>
    refine ⟨_, _, _, ?_, Or.inl ⟨err, Or.inl rfl, rfl, rfl, rfl⟩⟩
    simp [submitHandler, h, addMessage, tryBlock, hA, catchBlock, finallyBlock, Run.exec,
      Effect.apply, hu, Bubble.setTextContent]
  | ok data =>
    cases hT : answerText data with
    | error err =>
      refine ⟨_, _, _, ?_, Or.inl ⟨err, Or.inr ⟨data, rfl, hT⟩, rfl, rfl, rfl⟩⟩
      simp [submitHandler, h, addMessage, tryBlock, hA, hT, catchBlock, finallyBlock, Run.exec,
        Effect.apply, hu, Bubble.setTextContent]
    | ok t =>
      cases hS : sourcesBlock data with
      | error err =>
        refine ⟨_, _, _, ?_, Or.inr (Or.inl ⟨data, t, err, rfl, hT, hS, rfl, rfl, rfl⟩)⟩
        simp [submitHandler, h, addMessage, tryBlock, hA, hT, hS, catchBlock, finallyBlock,
          Run.exec, Effect.apply, hu, Bubble.setTextContent]
      | ok ob =>
        cases ob with
        | none =>
          refine ⟨_, _, _, ?_, Or.inr (Or.inr (Or.inl ⟨data, t, rfl, hT, hS, rfl, rfl, rfl⟩))⟩
          simp [submitHandler, h, addMessage, tryBlock, hA, hT, hS, catchBlock, finallyBlock,
            Run.exec, Effect.apply, hu, Bubble.setTextContent]
        | some blk =>
          refine ⟨_, _, _, ?_,
            Or.inr (Or.inr (Or.inr ⟨data, t, blk, rfl, hT, hS, rfl, rfl, rfl⟩))⟩
          simp [submitHandler, h, addMessage, tryBlock, hA, hT, hS, catchBlock, finallyBlock,
            Run.exec, Effect.apply, hu, Bubble.setTextContent, Bubble.append]

theorem requestsOf_append (es fs : List Effect) :
    requestsOf (es ++ fs) = requestsOf es ++ requestsOf fs := by
  induction es with
  | nil => rfl
  | cons e es ih => cases e <;> simp [requestsOf, ih]

theorem jsTrim_whitespace (v : String)
    (hws : ∀ c ∈ v.toList, isJsWhitespace c = true) : jsTrim v = "" := by
  have h1 : v.toList.dropWhile isJsWhitespace = [] := by
    rw [List.dropWhile_eq_nil_iff]
    exact hws
  unfold jsTrim
  rw [h1]
  rfl

theorem submitHandler_empty (app : App) (out : Outcome) (r : Run)
    (h : jsTrim r.chat.inputValue = "") :
    submitHandler app out r = { chat := r.chat, log := r.log ++ [.preventDefault] } := by
  simp [submitHandler, h, Run.exec, Effect.apply]

/-- C1: for a non-empty trimmed input and every outcome of the network call,
the handler appends exactly two messages to the chat window, a user message
carrying the trimmed text and then an assistant message; the earlier entries
stay in place and the length grows by 2. -/
theorem submit_appends_user_then_assistant (app : App) (out : Outcome) (r : Run)
    (h : jsTrim r.chat.inputValue ≠ "") :
    ∃ (user bot : Msg) (es : List Effect),
      (submitHandler app out r).chat.chatWindow = r.chat.chatWindow ++ [user, bot] ∧
      (submitHandler app out r).chat.chatWindow.length = r.chat.chatWindow.length + 2 ∧
      user.classes = ["msg", "msg-user"] ∧
      user.bubble = { text := jsTrim r.chat.inputValue, blocks := [] } ∧
      bot.classes = ["msg", "msg-bot"] ∧
      (submitHandler app out r).log = r.log ++ es ∧
      appendedBy es =
        [mkMsg "user" (jsTrim r.chat.inputValue), mkMsg "bot" placeholderPhrase] := by
  obtain ⟨mid, B, errs, heq, hmid⟩ := submitHandler_cases app out r h
  refine ⟨_, _, _, by rw [heq], by rw [heq]; simp, rfl, rfl, rfl, by rw [heq], ?_⟩
  rcases hmid with ⟨_, _, rfl, _⟩ | ⟨_, _, _, _, _, _, rfl, _⟩ | ⟨_, _, _, _, _, rfl, _⟩ |
    ⟨_, _, _, _, _, _, rfl, _⟩ <;> rfl

theorem submit_appends_user_then_assistant_witness :
    ∃ (user bot : Msg) (es : List Effect),
      (submitHandler (load { origin := "null", randomUUID := none, now := 17 })
        (.response 200 (.ok .null))
        { chat := { chatWindow := [], inputValue := " hi ", disabled := false, console := [] },
          log := [] }).chat.chatWindow = [] ++ [user, bot] ∧
      (submitHandler (load { origin := "null", randomUUID := none, now := 17 })
        (.response 200 (.ok .null))
        { chat := { chatWindow := [], inputValue := " hi ", disabled := false, console := [] },
          log := [] }).chat.chatWindow.length = 0 + 2 ∧
      user.classes = ["msg", "msg-user"] ∧
      user.bubble = { text := jsTrim " hi ", blocks := [] } ∧
      bot.classes = ["msg", "msg-bot"] ∧
      (submitHandler (load { origin := "null", randomUUID := none, now := 17 })
        (.response 200 (.ok .null))
        { chat := { chatWindow := [], inputValue := " hi ", disabled := false, console := [] },
          log := [] }).log = [] ++ es ∧
      appendedBy es = [mkMsg "user" (jsTrim " hi "), mkMsg "bot" placeholderPhrase] :=
  submit_appends_user_then_assistant
    (load { origin := "null", randomUUID := none, now := 17 })
    (.response 200 (.ok .null))
    { chat := { chatWindow := [], inputValue := " hi ", disabled := false, console := [] },
      log := [] }
    (by decide)

/-- C2: when the input value is empty or holds only white space, the handler
leaves the chat state as it was (transcript, input value, disabled flag and
console) and issues no request: the one statement it runs is
`preventDefault`. -/
theorem submit_blank_is_noop (app : App) (out : Outcome) (r : Run)
    (hws : ∀ c ∈ r.chat.inputValue.toList, isJsWhitespace c = true) :
    (submitHandler app out r).chat = r.chat ∧
    (submitHandler app out r).chat.chatWindow = r.chat.chatWindow ∧
    (submitHandler app out r).chat.disabled = r.chat.disabled ∧
    (submitHandler app out r).log = r.log ++ [.preventDefault] ∧
    requestsOf (submitHandler app out r).log = requestsOf r.log := by
  rw [submitHandler_empty app out r (jsTrim_whitespace _ hws)]
  refine ⟨rfl, rfl, rfl, rfl, ?_⟩
  rw [requestsOf_append]
  simp [requestsOf]

theorem submit_blank_is_noop_witness :
    (submitHandler (load { origin := "https://bot.example", randomUUID := some "u-1", now := 0 })
      (.rejected .typeError)
      { chat := { chatWindow := [mkMsg "user" "a", mkMsg "bot" "b"], inputValue := " \t ",
                  disabled := false, console := [] },
        log := [] }).chat.disabled = false :=
  (submit_blank_is_noop
    (load { origin := "https://bot.example", randomUUID := some "u-1", now := 0 })
    (.rejected .typeError)
    { chat := { chatWindow := [mkMsg "user" "a", mkMsg "bot" "b"], inputValue := " \t ",
                disabled := false, console := [] },
      log := [] }
    (by decide)).2.2.1

theorem awaited_of_isFailure (out : Outcome) (hf : isFailure out = true) :
    ∃ err, awaited out = .error err := by
  cases out with
  | rejected err => exact ⟨err, rfl⟩
  | response status body =>
    by_cases hok : respOk status = true
    · cases body with
      | error err => exact ⟨err, by simp [awaited, hok]⟩
      | ok data => simp [isFailure, hok] at hf
    · exact ⟨.error "API error", by simp [awaited, hok]⟩

theorem replay_append (es fs : List Effect) (s : Chat) :
    replay (es ++ fs) s = replay fs (replay es s) := by
  simp [replay, List.foldl_append]

theorem replay_disabled (es : List Effect) (s : Chat)
    (hes : ∀ e ∈ es, ∀ b, e ≠ Effect.setDisabled b) :
    (replay es s).disabled = s.disabled := by
  induction es generalizing s with
  | nil => rfl
  | cons e es ih =>
    have h1 : (e.apply s).disabled = s.disabled := by
      cases e with
      | setDisabled b => exact absurd rfl (hes _ (List.mem_cons_self _ _) b)
      | _ => rfl
    have h2 := ih (e.apply s) (fun e' he' => hes e' (List.mem_cons_of_mem _ he'))
    simpa [replay, h1] using h2

/-- C5: when the network call of a submission with non-empty trimmed input
fails (status outside 200-299 whatever the body, rejected `json()`, rejected
`fetch`), the assistant bubble shows the error phrase and no sources block,
and the transcript is the same for any two such failures; the detail goes to
the console only. -/
theorem failure_shows_error_phrase (app : App) (out1 out2 : Outcome) (r : Run)
    (h : jsTrim r.chat.inputValue ≠ "")
    (hf1 : isFailure out1 = true) (hf2 : isFailure out2 = true) :
    (submitHandler app out1 r).chat.chatWindow =
      r.chat.chatWindow ++
        [mkMsg "user" (jsTrim r.chat.inputValue), mkMsg "bot" errorPhrase] ∧
    lastBubble (submitHandler app out1 r).chat =
      some { text := errorPhrase, blocks := [] } ∧
    (submitHandler app out1 r).chat.chatWindow = (submitHandler app out2 r).chat.chatWindow ∧
    (submitHandler app out1 r).chat.disabled = false := by
  have key : ∀ out, isFailure out = true →
      (submitHandler app out r).chat.chatWindow =
        r.chat.chatWindow ++
          [mkMsg "user" (jsTrim r.chat.inputValue), mkMsg "bot" errorPhrase] ∧
      (submitHandler app out r).chat.disabled = false := by
    intro out hf
    obtain ⟨err0, h0⟩ := awaited_of_isFailure out hf
    obtain ⟨mid, B, errs, heq, hmid⟩ := submitHandler_cases app out r h
    rcases hmid with ⟨_, _, _, rfl, _⟩ | ⟨_, _, _, hA, _⟩ | ⟨_, _, hA, _⟩ | ⟨_, _, _, hA, _⟩
    · rw [heq]
      exact ⟨rfl, rfl⟩
    all_goals rw [h0] at hA; cases hA
  obtain ⟨k1, k1d⟩ := key out1 hf1
  obtain ⟨k2, _⟩ := key out2 hf2
  refine ⟨k1, ?_, by rw [k1, k2], k1d⟩
  simp [lastBubble, k1, mkMsg]

theorem failure_shows_error_phrase_witness :
    (submitHandler (load { origin := "null", randomUUID := none, now := 17 })
      (.response 500 (.ok (.obj [("answer", .str "secret")])))
      { chat := { chatWindow := [], inputValue := "hi", disabled := false, console := [] },
        log := [] }).chat.chatWindow =
    (submitHandler (load { origin := "null", randomUUID := none, now := 17 })
      (.rejected (.thrown "TypeError" "Failed to fetch"))
      { chat := { chatWindow := [], inputValue := "hi", disabled := false, console := [] },
        log := [] }).chat.chatWindow :=
  (failure_shows_error_phrase
    (load { origin := "null", randomUUID := none, now := 17 })
    (.response 500 (.ok (.obj [("answer", .str "secret")])))
    (.rejected (.thrown "TypeError" "Failed to fetch"))
    { chat := { chatWindow := [], inputValue := "hi", disabled := false, console := [] },
      log := [] }
    (by decide) (by rfl) (by rfl)).2.2.1

theorem session_disabled (app : App) (subs : List (String × Outcome)) :
    ∀ r : Run, r.chat.disabled = false → (session app subs r).chat.disabled = false := by
  induction subs with
  | nil => intro r hr; exact hr
  | cons sub rest ih =>
    intro r hr
    obtain ⟨value, out⟩ := sub
    apply ih
    by_cases hv : jsTrim value = ""
    · show (submitHandler app out _).chat.disabled = false
      rw [submitHandler_empty app out _ hv]
      exact hr
    · obtain ⟨mid, B, errs, heq, _⟩ := submitHandler_cases app out
        { r with chat := { r.chat with inputValue := value } } hv
      show (submitHandler app out _).chat.disabled = false
      rw [heq]

/-- C6: along a run of the handler with non-empty trimmed input the send
button is disabled when the request is issued, stays disabled through every
later statement of the `try` and `catch` blocks, and is enabled by the
`finally` block on every exit path; hence, starting enabled, it is enabled
after any sequence of submissions. -/
theorem submit_control_disabled_in_flight (app : App) (r : Run) :
    (∀ out : Outcome, jsTrim r.chat.inputValue ≠ "" →
      ∃ pre mid : List Effect,
        (submitHandler app out r).log =
          r.log ++ (pre ++ [.fetch (chatRequest app (jsTrim r.chat.inputValue))] ++ mid ++
            [.setDisabled false, .scrollToEnd]) ∧
        (submitHandler app out r).chat =
          replay (pre ++ [.fetch (chatRequest app (jsTrim r.chat.inputValue))] ++ mid ++
            [.setDisabled false, .scrollToEnd]) r.chat ∧
        requestsOf pre = [] ∧ requestsOf mid = [] ∧
        (∀ mid1 mid2 : List Effect, mid = mid1 ++ mid2 →
          (replay (pre ++ [.fetch (chatRequest app (jsTrim r.chat.inputValue))] ++ mid1)
            r.chat).disabled = true) ∧
        (submitHandler app out r).chat.disabled = false) ∧
    (r.chat.disabled = false →
      ∀ subs : List (String × Outcome), (session app subs r).chat.disabled = false) := by
  refine ⟨?_, fun hr subs => session_disabled app subs r hr⟩
  intro out h
  have hu : ∀ (f : Msg → Msg) (a b : Msg),
      updateAt f (r.chat.chatWindow ++ [a, b]) (r.chat.chatWindow.length + 1)
        = r.chat.chatWindow ++ [a, f b] := fun f a b => updateAt_append_two f _ a b
  obtain ⟨mid, B, errs, heq, hmid⟩ := submitHandler_cases app out r h
  refine ⟨[.preventDefault,
      .appendChild (mkMsg "user" (jsTrim r.chat.inputValue)), .scrollToEnd,
      .setInputValue "", .setDisabled true,
      .appendChild (mkMsg "bot" placeholderPhrase), .scrollToEnd], mid, ?_, ?_, rfl, ?_, ?_, ?_⟩
  · rw [heq]; simp
  · rw [heq]
    rcases hmid with ⟨_, _, rfl, rfl, rfl⟩ | ⟨_, _, _, _, _, _, rfl, rfl, rfl⟩ |
      ⟨_, _, _, _, _, rfl, rfl, rfl⟩ | ⟨_, _, _, _, _, _, rfl, rfl, rfl⟩ <;>
      simp [replay, Effect.apply, hu, Bubble.setTextContent, Bubble.append]
  · rcases hmid with ⟨_, _, rfl, _⟩ | ⟨_, _, _, _, _, _, rfl, _⟩ |
      ⟨_, _, _, _, _, rfl, _⟩ | ⟨_, _, _, _, _, _, rfl, _⟩ <;> rfl
  · intro mid1 mid2 hsplit
    rw [replay_append, replay_disabled]
    · simp [replay, Effect.apply]
    · intro e he b hb
      have hmem : e ∈ mid := by rw [hsplit]; exact List.mem_append_left _ he
      subst hb
      rcases hmid with ⟨_, _, rfl, _⟩ | ⟨_, _, _, _, _, _, rfl, _⟩ |
        ⟨_, _, _, _, _, rfl, _⟩ | ⟨_, _, _, _, _, _, rfl, _⟩ <;> simp at hmem
  · rw [heq]

theorem submit_control_disabled_in_flight_witness :
    (submitHandler (load { origin := "null", randomUUID := none, now := 17 })
      (.response 200 (.ok (.obj [("answer", .str "X"), ("sources", .arr [.null])])))
      { chat := { chatWindow := [], inputValue := "hi", disabled := false, console := [] },
        log := [] }).chat.disabled = false :=
  match (submit_control_disabled_in_flight
    (load { origin := "null", randomUUID := none, now := 17 })
    { chat := { chatWindow := [], inputValue := "hi", disabled := false, console := [] },
      log := [] }).1
    (.response 200 (.ok (.obj [("answer", .str "X"), ("sources", .arr [.null])])))
    (by decide) with
  | ⟨_, _, _, _, _, _, _, hfin⟩ => hfin

theorem chatRequest_load (w : Window) (text : String) :
    chatRequest (load w) text = referenceRequest w.origin (load w).sessionId text := by
  simp [chatRequest, referenceRequest, load]

theorem submission_requests (app : App) (value : String) (out : Outcome) (r : Run) :
    ∃ es, (submission app value out r).log = r.log ++ es ∧
      requestsOf es = if jsTrim value = "" then [] else [chatRequest app (jsTrim value)] := by
  by_cases hv : jsTrim value = ""
  · refine ⟨[.preventDefault], ?_, by simp [hv, requestsOf]⟩
    show (submitHandler app out _).log = _
    rw [submitHandler_empty app out _ hv]
  · obtain ⟨mid, B, errs, heq, hmid⟩ := submitHandler_cases app out
      { r with chat := { r.chat with inputValue := value } } hv
    refine ⟨[.preventDefault,
        .appendChild (mkMsg "user" (jsTrim value)), .scrollToEnd,
        .setInputValue "", .setDisabled true,
        .appendChild (mkMsg "bot" placeholderPhrase), .scrollToEnd,
        .fetch (chatRequest app (jsTrim value))] ++ mid ++ [.setDisabled false, .scrollToEnd],
      ?_, ?_⟩
    · show (submitHandler app out _).log = _
      rw [heq]
    · rcases hmid with ⟨_, _, rfl, _⟩ | ⟨_, _, _, _, _, _, rfl, _⟩ |
        ⟨_, _, _, _, _, rfl, _⟩ | ⟨_, _, _, _, _, _, rfl, _⟩ <;> simp [hv, requestsOf]

/-- C9: over a page load and any sequence of submissions, the requests issued
are, in order, one per submission with non-empty trimmed input, each equal to
the reference request built from the page origin, the session identifier
computed at load and the trimmed input; a blank submission issues none. -/
theorem session_requests_match_reference (w : Window) (subs : List (String × Outcome))
    (r : Run) :
    ∃ es, (session (load w) subs r).log = r.log ++ es ∧
      requestsOf es =
        (sentTexts subs).map (referenceRequest w.origin (load w).sessionId) := by
  induction subs generalizing r with
  | nil => exact ⟨[], by simp [session], rfl⟩
  | cons sub rest ih =>
    obtain ⟨value, out⟩ := sub
    obtain ⟨es1, h1, hr1⟩ := submission_requests (load w) value out r
    obtain ⟨es2, h2, hr2⟩ := ih (submission (load w) value out r)
    refine ⟨es1 ++ es2, ?_, ?_⟩
    · simp only [session]
      rw [h2, h1, List.append_assoc]
    · rw [requestsOf_append, hr1, hr2]
      by_cases hv : jsTrim value = ""
      · simp [hv, sentTexts]
      · simp [hv, sentTexts, chatRequest_load]

theorem answerText_ok (data : Json) (t : String) (h : answerText data = .ok t) :
    ∃ a, getProp (some data) "answer" = .ok a ∧
      ((truthy a = true ∧ toDOMString a = .ok t) ∨
       (truthy a = false ∧ t = fallbackPhrase)) := by
  unfold answerText at h
  cases hg : getProp (some data) "answer" with
  | error e => simp [hg, bind, Except.bind] at h
  | ok a =>
    refine ⟨a, rfl, ?_⟩
    by_cases ht : truthy a = true
    · left
      simp only [hg, bind, Except.bind, ht, if_true] at h
      exact ⟨ht, h⟩
    · right
      have hf : truthy a = false := by simpa using ht
      simp only [hg, bind, Except.bind, hf] at h
      simp [toDOMString, Json.render] at h
      exact ⟨hf, h.symm⟩

/-- C10, amended: after the placeholder was written, the text of the
provisional bubble is replaced exactly once, by the error phrase when the
awaited calls or the reading of the answer fail, and by the answer (the text
of `data.answer` when truthy, the fallback phrase otherwise) when the reply is
rendered; except that when the answer has been written and building the
sources block then throws, it is replaced twice, by the answer and then by the
error phrase.  No statement of the handler assigns the text of any other
bubble, and the user message stays as appended. -/
theorem placeholder_text_writes (app : App) (out : Outcome) (r : Run)
    (h : jsTrim r.chat.inputValue ≠ "") :
    ∃ es, (submitHandler app out r).log = r.log ++ es ∧
      ((∃ err, (awaited out = .error err ∨
            ∃ data, awaited out = .ok data ∧ answerText data = .error err) ∧
          textWrites (r.chat.chatWindow.length + 1) es =
            ["Erreur : impossible de joindre le serveur."]) ∨
       (∃ data t ob a, awaited out = .ok data ∧ answerText data = .ok t ∧
          sourcesBlock data = .ok ob ∧
          getProp (some data) "answer" = .ok a ∧
          ((truthy a = true ∧ toDOMString a = .ok t) ∨
           (truthy a = false ∧ t = fallbackPhrase)) ∧
          textWrites (r.chat.chatWindow.length + 1) es = [t]) ∨
       (∃ data t err a, awaited out = .ok data ∧ answerText data = .ok t ∧
          sourcesBlock data = .error err ∧
          getProp (some data) "answer" = .ok a ∧
          ((truthy a = true ∧ toDOMString a = .ok t) ∨
           (truthy a = false ∧ t = fallbackPhrase)) ∧
          textWrites (r.chat.chatWindow.length + 1) es =
            [t, "Erreur : impossible de joindre le serveur."])) ∧
      (∀ b, b ≠ r.chat.chatWindow.length + 1 → textWrites b es = []) ∧
      (submitHandler app out r).chat.chatWindow[r.chat.chatWindow.length]? =
        some (mkMsg "user" (jsTrim r.chat.inputValue)) := by
  obtain ⟨mid, B, errs, heq, hmid⟩ := submitHandler_cases app out r h
  refine ⟨_, by rw [heq], ?_, ?_, ?_⟩
  · rcases hmid with ⟨err, hA, rfl, _⟩ | ⟨data, t, err, hA, hT, hS, rfl, _⟩ |
      ⟨data, t, hA, hT, hS, rfl, _⟩ | ⟨data, t, blk, hA, hT, hS, rfl, _⟩
    · left
      exact ⟨err, hA, by simp [textWrites, errorPhrase]⟩
    · right; right
      obtain ⟨a, ha, hta⟩ := answerText_ok data t hT
      exact ⟨data, t, err, a, hA, hT, hS, ha, hta, by simp [textWrites, errorPhrase]⟩
    · right; left
      obtain ⟨a, ha, hta⟩ := answerText_ok data t hT
      exact ⟨data, t, none, a, hA, hT, hS, ha, hta, by simp [textWrites]⟩
    · right; left
      obtain ⟨a, ha, hta⟩ := answerText_ok data t hT
      exact ⟨data, t, some blk, a, hA, hT, hS, ha, hta, by simp [textWrites]⟩
  · intro b hb
    have hb2 : ¬ (r.chat.chatWindow.length + 1 = b) := fun e => hb e.symm
    rcases hmid with ⟨_, _, rfl, _⟩ | ⟨_, _, _, _, _, _, rfl, _⟩ |
      ⟨_, _, _, _, _, rfl, _⟩ | ⟨_, _, _, _, _, _, rfl, _⟩ <;> simp [textWrites, hb2]
  · rw [heq]
    exact getElem?_append_length _ _ _

theorem placeholder_text_writes_witness :
    jsTrim "hi" ≠ "" ∧
    ∃ es, (submitHandler (load { origin := "null", randomUUID := none, now := 17 })
        (.response 200 (.ok (.obj [("answer", .str "X"),
          ("sources", .arr [.obj [("url", .str "a")], .null])])))
        { chat := { chatWindow := [], inputValue := "hi", disabled := false, console := [] },
          log := [] }).log = [] ++ es ∧
      ((∃ err, (awaited (.response 200 (.ok (.obj [("answer", .str "X"),
              ("sources", .arr [.obj [("url", .str "a")], .null])]))) = .error err ∨
            ∃ data, awaited (.response 200 (.ok (.obj [("answer", .str "X"),
              ("sources", .arr [.obj [("url", .str "a")], .null])]))) = .ok data ∧
              answerText data = .error err) ∧
          textWrites (0 + 1) es = ["Erreur : impossible de joindre le serveur."]) ∨
       (∃ data t ob a, awaited (.response 200 (.ok (.obj [("answer", .str "X"),
              ("sources", .arr [.obj [("url", .str "a")], .null])]))) = .ok data ∧
          answerText data = .ok t ∧
          sourcesBlock data = .ok ob ∧
          getProp (some data) "answer" = .ok a ∧
          ((truthy a = true ∧ toDOMString a = .ok t) ∨
           (truthy a = false ∧ t = fallbackPhrase)) ∧
          textWrites (0 + 1) es = [t]) ∨
       (∃ data t err a, awaited (.response 200 (.ok (.obj [("answer", .str "X"),
              ("sources", .arr [.obj [("url", .str "a")], .null])]))) = .ok data ∧
          answerText data = .ok t ∧
          sourcesBlock data = .error err ∧
          getProp (some data) "answer" = .ok a ∧
          ((truthy a = true ∧ toDOMString a = .ok t) ∨
           (truthy a = false ∧ t = fallbackPhrase)) ∧
          textWrites (0 + 1) es = [t, "Erreur : impossible de joindre le serveur."])) ∧
      (∀ b, b ≠ 0 + 1 → textWrites b es = []) ∧
      (submitHandler (load { origin := "null", randomUUID := none, now := 17 })
        (.response 200 (.ok (.obj [("answer", .str "X"),
          ("sources", .arr [.obj [("url", .str "a")], .null])])))
        { chat := { chatWindow := [], inputValue := "hi", disabled := false, console := [] },
          log := [] }).chat.chatWindow[0]? = some (mkMsg "user" (jsTrim "hi")) :=
  ⟨by decide,
   placeholder_text_writes
    (load { origin := "null", randomUUID := none, now := 17 })
    (.response 200 (.ok (.obj [("answer", .str "X"),
      ("sources", .arr [.obj [("url", .str "a")], .null])])))
    { chat := { chatWindow := [], inputValue := "hi", disabled := false, console := [] },
      log := [] }
    (by decide)⟩

/-- C10, as stated, fails: on a 2xx body with answer `X` and a sources list
holding `null`, the provisional bubble is assigned the answer and then the
error phrase. -/
theorem placeholder_text_written_twice :
    textWrites 1
      (submitHandler (load { origin := "null", randomUUID := none, now := 17 })
        (.response 200 (.ok (.obj [("answer", .str "X"), ("sources", .arr [.null])])))
        { chat := { chatWindow := [], inputValue := "hi", disabled := false, console := [] },
          log := [] }).log
      = ["X", "Erreur : impossible de joindre le serveur."] := by
  decide

theorem awaited_ok (status : Nat) (data : Json) (hok : respOk status = true) :
    awaited (.response status (.ok data)) = .ok data := by
  simp [awaited, hok]

theorem submitHandler_rendered (app : App) (out : Outcome) (r : Run)
    (h : jsTrim r.chat.inputValue ≠ "") (data : Json) (t : String)
    (ob : Option SourcesBlock) (hA : awaited out = .ok data)
    (hT : answerText data = .ok t) (hS : sourcesBlock data = .ok ob) :
    ∃ es, (submitHandler app out r).log = r.log ++ es ∧
      textWrites (r.chat.chatWindow.length + 1) es = [t] ∧
      (submitHandler app out r).chat.console = r.chat.console ∧
      lastBubble (submitHandler app out r).chat = some { text := t, blocks := ob.toList } := by
  obtain ⟨mid, B, errs, heq, hmid⟩ := submitHandler_cases app out r h
  refine ⟨_, by rw [heq], ?_⟩
  rcases hmid with ⟨err, hA2 | ⟨d, hA2, hT2⟩, _⟩ | ⟨d, t2, err, hA2, hT2, hS2, _⟩ |
    ⟨d, t2, hA2, hT2, hS2, rfl, rfl, rfl⟩ | ⟨d, t2, blk, hA2, hT2, hS2, rfl, rfl, rfl⟩
  · rw [hA] at hA2; cases hA2
  · rw [hA] at hA2; cases hA2
    rw [hT] at hT2; cases hT2
  · rw [hA] at hA2; cases hA2
    rw [hS] at hS2; cases hS2
  · rw [hA] at hA2; cases hA2
    rw [hT] at hT2; cases hT2
    rw [hS] at hS2; cases hS2
    rw [heq]
    simp [textWrites, lastBubble]
  · rw [hA] at hA2; cases hA2
    rw [hT] at hT2; cases hT2
    rw [hS] at hS2; cases hS2
    rw [heq]
    simp [textWrites, lastBubble]

theorem sourceLinks_of_urls (items : List Json) :
    ∀ urls : List String, items.map entryUrl = urls.map some →
      sourceLinks items = .ok (urls.map (fun u =>
        { href := u, target := "_blank", rel := "noopener noreferrer", text := u })) := by
  induction items with
  | nil =>
    intro urls hu
    cases urls with
    | nil => rfl
    | cons u us => simp at hu
  | cons item rest ih =>
    intro urls hu
    cases urls with
    | nil => simp at hu
    | cons u us =>
      simp only [List.map_cons, List.cons.injEq] at hu
      obtain ⟨h1, h2⟩ := hu
      have hl : sourceLink item = .ok
          { href := u, target := "_blank", rel := "noopener noreferrer", text := u } := by
        cases item with
        | obj props =>
          simp only [entryUrl] at h1
          cases hp : lookupLast props "url" with
          | none => simp [hp] at h1
          | some v =>
            cases v with
            | str u2 =>
              simp [hp] at h1
              subst h1
              simp [sourceLink, getProp, hp, toDOMString, toTextContent, Json.render, bind,
                Except.bind, pure, Except.pure]
            | _ => simp [hp] at h1
        | _ => simp [entryUrl] at h1
      simp [sourceLinks, hl, ih us h2, bind, Except.bind, pure, Except.pure]

theorem take_pairs_eq_range (urls : List String) :
    ∀ k : Nat, (urls.take k).map (fun u => (u, u)) =
      (List.range (min urls.length k)).map (fun i => (urls.getD i "", urls.getD i "")) := by
  induction urls with
  | nil => intro k; simp
  | cons u us ih =>
    intro k
    cases k with
    | zero => simp
    | succ k =>
      have e : min (u :: us).length (k + 1) = min us.length k + 1 := by
        simp only [List.length_cons]; omega
      rw [e, List.range_succ_eq_map]
      simp [ih k, Function.comp_def]

theorem sourcesBlock_of_urls (data : Json) (items : List Json) (urls : List String)
    (hs : getProp (some data) "sources" = .ok (some (.arr items)))
    (hu : items.map entryUrl = urls.map some) :
    ∃ ob, sourcesBlock data = .ok ob ∧
      renderedSources { text := "", blocks := ob.toList } = sourcesReference urls := by
  have hlen : items.length = urls.length := by
    have := congrArg List.length hu
    simpa using this
  by_cases h0 : items.length = 0
  · refine ⟨none, ?_, ?_⟩
    · simp [sourcesBlock, hs, h0, bind, Except.bind, pure, Except.pure]
    · simp [renderedSources, sourcesReference, ← hlen, h0]
  · have hu4 : (items.take 4).map entryUrl = (urls.take 4).map some := by
      rw [List.map_take, List.map_take, hu]
    refine ⟨some { title := "Sources", links := (urls.take 4).map (fun u =>
        { href := u, target := "_blank", rel := "noopener noreferrer", text := u }) }, ?_, ?_⟩
    · have hpos : 0 < items.length := by omega
      simp [sourcesBlock, hs, hpos, sourceLinks_of_urls _ _ hu4, bind, Except.bind, pure,
        Except.pure]
    · have hne : ¬ urls.length = 0 := by omega
      unfold renderedSources sourcesReference
      rw [if_neg hne, ← take_pairs_eq_range urls 4]
      simp only [Option.toList, List.map_cons, List.map_nil, List.map_map]
      rfl

theorem sourcesBlock_of_not_list (data : Json) (t : String) (hT : answerText data = .ok t)
    (hs : ∀ items, getProp (some data) "sources" ≠ .ok (some (.arr items))) :
    sourcesBlock data = .ok none := by
  cases data with
  | null => simp [answerText, getProp, bind, Except.bind] at hT
  | obj props =>
    cases hp : lookupLast props "sources" with
    | none => simp [sourcesBlock, getProp, hp, bind, Except.bind, pure, Except.pure]
    | some v =>
      cases v with
      | arr items => exact absurd (by simp [getProp, hp]) (hs items)
      | _ => simp [sourcesBlock, getProp, hp, bind, Except.bind, pure, Except.pure]
  | _ => simp [sourcesBlock, getProp, bind, Except.bind, pure, Except.pure]

theorem sourcesBlock_wellformed (props : List (String × Json))
    (hs : lookupLast props "sources" = none ∨
      ∃ (items : List Json) (urls : List String),
        lookupLast props "sources" = some (.arr items) ∧
        items.map entryUrl = urls.map some) :
    ∃ ob, sourcesBlock (.obj props) = .ok ob := by
  rcases hs with hs | ⟨items, urls, hs, hu⟩
  · exact ⟨none, by simp [sourcesBlock, getProp, hs, bind, Except.bind, pure, Except.pure]⟩
  · obtain ⟨ob, hob, _⟩ := sourcesBlock_of_urls (.obj props) items urls
      (by simp [getProp, hs]) hu
    exact ⟨ob, hob⟩

/-- C3, amended: for a 2xx response whose answer is written to the bubble
(reading `data.answer` and converting it to text raise no exception, as with
an absent answer or a string), the sources shown under the reply are those of
the reference: when the `sources` field is a list of entries each carrying a
url, nothing for an empty list and otherwise one block titled `Sources` with
the first `min n 4` urls, in order, each as target and text of its link; when
the field is absent or not a list, nothing. -/
theorem sources_block_matches_reference (app : App) (status : Nat) (data : Json)
    (t : String) (r : Run) (h : jsTrim r.chat.inputValue ≠ "")
    (hok : respOk status = true) (hT : answerText data = .ok t) :
    (∀ items urls, getProp (some data) "sources" = .ok (some (.arr items)) →
      items.map entryUrl = urls.map some →
      ∃ b, lastBubble (submitHandler app (.response status (.ok data)) r).chat = some b ∧
        b.text = t ∧ renderedSources b = sourcesReference urls) ∧
    ((∀ items, getProp (some data) "sources" ≠ .ok (some (.arr items))) →
      lastBubble (submitHandler app (.response status (.ok data)) r).chat =
        some { text := t, blocks := [] }) := by
  constructor
  · intro items urls hs hu
    obtain ⟨ob, hob, href⟩ := sourcesBlock_of_urls data items urls hs hu
    obtain ⟨es, _, _, _, hlast⟩ := submitHandler_rendered app _ r h data t ob
      (awaited_ok status data hok) hT hob
    exact ⟨_, hlast, rfl, href⟩
  · intro hs
    obtain ⟨es, _, _, _, hlast⟩ := submitHandler_rendered app _ r h data t none
      (awaited_ok status data hok) hT (sourcesBlock_of_not_list data t hT hs)
    exact hlast

theorem sources_block_matches_reference_witness :
    ∃ b, lastBubble (submitHandler (load { origin := "null", randomUUID := none, now := 17 })
        (.response 200 (.ok (.obj [("answer", .str "X"), ("sources", .arr
          [.obj [("url", .str "a")], .obj [("url", .str "b")], .obj [("url", .str "c")],
           .obj [("url", .str "d")], .obj [("url", .str "e")], .obj [("url", .str "a")]])])))
        { chat := { chatWindow := [], inputValue := "hi", disabled := false, console := [] },
          log := [] }).chat = some b ∧
      b.text = "X" ∧
      renderedSources b = sourcesReference ["a", "b", "c", "d", "e", "a"] :=
  (sources_block_matches_reference
    (load { origin := "null", randomUUID := none, now := 17 }) 200
    (.obj [("answer", .str "X"), ("sources", .arr
      [.obj [("url", .str "a")], .obj [("url", .str "b")], .obj [("url", .str "c")],
       .obj [("url", .str "d")], .obj [("url", .str "e")], .obj [("url", .str "a")]])])
    "X"
    { chat := { chatWindow := [], inputValue := "hi", disabled := false, console := [] },
      log := [] }
    (by decide) (by rfl) (by rfl)).1
    [.obj [("url", .str "a")], .obj [("url", .str "b")], .obj [("url", .str "c")],
     .obj [("url", .str "d")], .obj [("url", .str "e")], .obj [("url", .str "a")]]
    ["a", "b", "c", "d", "e", "a"] (by rfl) (by rfl)

/-- C3, as stated, fails: on a 2xx body whose `sources` field is a list of one
entry carrying the url `a`, but whose answer is an object with an own
`toString` property, the assignment of line 88 throws before the sources are
looked at, and no block is rendered where the reference has one link. -/
theorem sources_not_rendered_when_answer_throws :
    respOk 200 = true ∧
    [Json.obj [("url", .str "a")]].map entryUrl = ["a"].map some ∧
    (lastBubble (submitHandler (load { origin := "null", randomUUID := none, now := 17 })
      (.response 200 (.ok (.obj [("answer", .obj [("toString", .str "x")]),
        ("sources", .arr [.obj [("url", .str "a")]])])))
      { chat := { chatWindow := [], inputValue := "hi", disabled := false, console := [] },
        log := [] }).chat).map renderedSources = some [] ∧
    sourcesReference ["a"] = [("Sources", [("a", "a")])] := by
  decide

/-- C4, amended: for every non-empty string `X`, a 2xx response whose body is
a JSON object with answer `X`, and whose `sources` field is absent or a list
of entries each carrying a url, ends with `X` as the text of the assistant
bubble. -/
theorem answer_shown (app : App) (status : Nat) (props : List (String × Json))
    (X : String) (r : Run) (h : jsTrim r.chat.inputValue ≠ "")
    (hok : respOk status = true) (hX : X ≠ "")
    (ha : lookupLast props "answer" = some (.str X))
    (hs : lookupLast props "sources" = none ∨
      ∃ (items : List Json) (urls : List String),
        lookupLast props "sources" = some (.arr items) ∧
        items.map entryUrl = urls.map some) :
    (lastBubble (submitHandler app (.response status (.ok (.obj props))) r).chat).map
      (fun b => b.text) = some X := by
  obtain ⟨ob, hob⟩ := sourcesBlock_wellformed props hs
  have hT : answerText (.obj props) = .ok X := by
    simp [answerText, getProp, ha, truthy, hX, toDOMString, Json.render, bind, Except.bind]
  obtain ⟨es, _, _, _, hlast⟩ := submitHandler_rendered app _ r h (.obj props) X ob
    (awaited_ok status _ hok) hT hob
  rw [hlast]
  rfl

theorem answer_shown_witness :
    (lastBubble (submitHandler (load { origin := "null", randomUUID := none, now := 17 })
      (.response 200 (.ok (.obj [("answer", .str "X"),
        ("sources", .arr [.obj [("url", .str "a")], .obj [("url", .str "b")]])])))
      { chat := { chatWindow := [], inputValue := "hi", disabled := false, console := [] },
        log := [] }).chat).map (fun b => b.text) = some "X" :=
  answer_shown (load { origin := "null", randomUUID := none, now := 17 }) 200
    [("answer", .str "X"),
      ("sources", .arr [.obj [("url", .str "a")], .obj [("url", .str "b")]])]
    "X"
    { chat := { chatWindow := [], inputValue := "hi", disabled := false, console := [] },
      log := [] }
    (by decide) (by rfl) (by decide) (by rfl)
    (Or.inr ⟨[.obj [("url", .str "a")], .obj [("url", .str "b")]], ["a", "b"],
      by rfl, by rfl⟩)

/-- C4, as stated, fails at the empty string: a 2xx body whose answer is `""`
ends with the fallback phrase, not with `""`, as the text of the bubble. -/
theorem empty_answer_not_shown :
    (lastBubble (submitHandler (load { origin := "null", randomUUID := none, now := 17 })
      (.response 200 (.ok (.obj [("answer", .str "")])))
      { chat := { chatWindow := [], inputValue := "hi", disabled := false, console := [] },
        log := [] }).chat).map (fun b => b.text) = some fallbackPhrase ∧
    some fallbackPhrase ≠ some "" := by
  decide

/-- C7: a 2xx response whose body is a JSON object without an `answer` field,
and whose `sources` field is absent or a list of entries each carrying a url,
ends with the fallback phrase as the text of the assistant bubble; the
`catch` block does not run: the bubble is written once, with that phrase, and
nothing is logged to the console. -/
theorem missing_answer_shows_fallback (app : App) (status : Nat)
    (props : List (String × Json)) (r : Run) (h : jsTrim r.chat.inputValue ≠ "")
    (hok : respOk status = true)
    (ha : lookupLast props "answer" = none)
    (hs : lookupLast props "sources" = none ∨
      ∃ (items : List Json) (urls : List String),
        lookupLast props "sources" = some (.arr items) ∧
        items.map entryUrl = urls.map some) :
    (lastBubble (submitHandler app (.response status (.ok (.obj props))) r).chat).map
      (fun b => b.text) = some "Je n\x27ai pas de réponse pour l\x27instant." ∧
    fallbackPhrase ≠ errorPhrase ∧
    (submitHandler app (.response status (.ok (.obj props))) r).chat.console = r.chat.console ∧
    ∃ es, (submitHandler app (.response status (.ok (.obj props))) r).log = r.log ++ es ∧
      textWrites (r.chat.chatWindow.length + 1) es = [fallbackPhrase] := by
  obtain ⟨ob, hob⟩ := sourcesBlock_wellformed props hs
  have hT : answerText (.obj props) = .ok fallbackPhrase := by
    simp [answerText, getProp, ha, truthy, toDOMString, Json.render, bind, Except.bind]
  obtain ⟨es, hlog, hw, hc, hlast⟩ := submitHandler_rendered app _ r h (.obj props)
    fallbackPhrase ob (awaited_ok status _ hok) hT hob
  refine ⟨by rw [hlast]; rfl, by decide, hc, es, hlog, hw⟩

theorem missing_answer_shows_fallback_witness :
    (lastBubble (submitHandler (load { origin := "null", randomUUID := none, now := 17 })
      (.response 200 (.ok (.obj [("sources", .arr [.obj [("url", .str "a")]])])))
      { chat := { chatWindow := [], inputValue := "hi", disabled := false, console := [] },
        log := [] }).chat).map (fun b => b.text)
      = some "Je n\x27ai pas de réponse pour l\x27instant." :=
  (missing_answer_shows_fallback (load { origin := "null", randomUUID := none, now := 17 }) 200
    [("sources", .arr [.obj [("url", .str "a")]])]
    { chat := { chatWindow := [], inputValue := "hi", disabled := false, console := [] },
      log := [] }
    (by decide) (by rfl) (by rfl)
    (Or.inr ⟨[.obj [("url", .str "a")]], ["a"], by rfl, by rfl⟩)).1

end AppJs
